import Mathlib

/-!
Shallow embedding of the request-payload builder of the aitl-cli repository
(src/cli/main.py): the pure functions `_get_endpoint`, `_create_template` and
`make_job_create_request`, together with models of the Python primitives they
use (`str.split` on a one-character separator, `int()` on decimal strings,
truthiness of strings and lists, insertion-ordered dictionaries).

Python dictionaries are modelled as insertion-ordered association lists, so
key order in the embedding follows the order of assignments in the source.
`ValueError` is modelled with `Except String`; a function that cannot raise
returns its value directly.
-/

/-- JSON-like values produced by the payload builders.  `null` is included so
that absence of null placeholders can be stated; the builders never emit it. -/
inductive Json where
  | null : Json
  | str : String → Json
  | int : Int → Json
  | arr : List Json → Json
  | obj : List (String × Json) → Json
deriving Repr

/-- Lookup of a key in an insertion-ordered association list, as Python
dictionary indexing (first binding wins; the builders never rebind a key). -/
def lookupKey (k : String) : List (String × Json) → Option Json
  | [] => none
  | kv :: rest => if kv.1 = k then some kv.2 else lookupKey k rest

/-- Key lookup on a `Json` value: defined on objects, `none` elsewhere. -/
def Json.getKey (j : Json) (k : String) : Option Json :=
  match j with
  | Json.obj kvs => lookupKey k kvs
  | _ => none

/-- Python `str.strip()` as used by `int()`: drop whitespace on both ends. -/
def pyStripWs (cs : List Char) : List Char :=
  ((cs.dropWhile Char.isWhitespace).reverse.dropWhile Char.isWhitespace).reverse

/-- Recogniser for the digit body accepted by Python `int()`: a non-empty
run of decimal digits, with single underscores allowed between digits. -/
def pyDigitGroups : List Char → Bool
  | [] => false
  | [c] => c.isDigit
  | c :: d :: rest =>
    c.isDigit && (if d = '_' then pyDigitGroups rest else pyDigitGroups (d :: rest))

/-- Numeric value of a digit body (underscores removed). -/
def digitsVal (cs : List Char) : Nat :=
  (cs.filter (fun c => c ≠ '_')).foldl (fun a c => a * 10 + (c.toNat - 48)) 0

/-- Python `int(s)` for a decimal string: optional surrounding whitespace,
optional sign, then digits with optional single underscores.  Returns `none`
exactly when Python raises `ValueError`. -/
def pyIntOfString (s : String) : Option Int :=
  let cs := pyStripWs s.data
  match cs with
  | '-' :: rest => if pyDigitGroups rest then some (-(Int.ofNat (digitsVal rest))) else none
  | '+' :: rest => if pyDigitGroups rest then some (Int.ofNat (digitsVal rest)) else none
  | rest => if pyDigitGroups rest then some (Int.ofNat (digitsVal rest)) else none

/-- Python `int(s)` with its `ValueError` made explicit. -/
def pyInt (s : String) : Except String Int :=
  match pyIntOfString s with
  | some n => Except.ok n
  | none => Except.error ("invalid literal for int() with base 10: \x27" ++ s ++ "\x27")

/-- The list comprehension `[int(x) for x in l]`: first failure raises. -/
def mapPyInt : List String → Except String (List Int)
  | [] => Except.ok []
  | s :: rest =>
    match pyInt s with
    | Except.error e => Except.error e
    | Except.ok n =>
      match mapPyInt rest with
      | Except.error e => Except.error e
      | Except.ok ns => Except.ok (n :: ns)

/-- Python `str.split(sep)` for a one-character separator, on the character
list: splits at every occurrence, keeping empty parts; `[] ↦ [[]]`. -/
def splitChar (sep : Char) : List Char → List (List Char)
  | [] => [[]]
  | c :: rest =>
    if c = sep then [] :: splitChar sep rest
    else
      match splitChar sep rest with
      | [] => [[c]]
      | p :: ps => (c :: p) :: ps

/-- Python `s.split(sep)` for a one-character separator, on strings. -/
def pySplit (s : String) (sep : Char) : List String :=
  (splitChar sep s.data).map String.mk

/-- Joining a list of parts with a separator character between them; the
inverse direction of `splitChar`. -/
def joinSep (sep : Char) : List (List Char) → List Char
  | [] => []
  | [p] => p
  | p :: ps => p ++ sep :: joinSep sep ps

/-- `RESOURCE_PROVIDER` constant of src/cli/main.py. -/
def RESOURCE_PROVIDER : String := "Microsoft.AzureImageTestingForLinux"

/-- `API_VERSION` constant of src/cli/main.py. -/
def API_VERSION : String := "2023-08-01-preview"

/-- `_get_endpoint` of src/cli/main.py: formats the resource API URL. -/
def _get_endpoint (segment : String) (resource_group : String) (subscription_id : String) : String :=
  "https://eastus2euap.management.azure.com/subscriptions/" ++ subscription_id ++
    "/resourceGroups/" ++ resource_group ++ "/providers/" ++ RESOURCE_PROVIDER ++
    "/" ++ segment ++ "?api-version=" ++ API_VERSION

/-- `_create_template` of src/cli/main.py.  Builds the job-template dictionary;
the only possible error is the `ValueError` of `int()` on a priority (raised
by the comprehension only when `test_priorities` is non-empty, and `mapPyInt`
on `[]` never fails, so evaluating it unconditionally is equivalent).
`location` is a parameter of the source function but is unused by it. -/
def _create_template (vm_size : String) (test_priorities : List String)
    (test_cases : List String) (location : String) (regions : List String)
    (concurrency : Int) : Except String (List (String × Json)) :=
  match mapPyInt test_priorities with
  | Except.error e => Except.error e
  | Except.ok ps =>
    let selection : List (String × Json) :=
      (if test_priorities ≠ [] then [("casePriority", Json.arr (ps.map Json.int))] else []) ++
        (if test_cases ≠ [] then [("caseName", Json.arr (test_cases.map Json.str))] else [])
    let withSel : List (String × Json) :=
      [("templateTags", Json.arr [])] ++
        (if selection.isEmpty then [] else [("selections", Json.arr [Json.obj selection])])
    Except.ok (withSel ++
      [("region", Json.arr (regions.map Json.str)),
       ("vmSize", Json.arr (if vm_size ≠ "" then [Json.str vm_size] else [])),
       ("concurrency", Json.int concurrency)])

/-- `make_job_create_request` of src/cli/main.py: validates the image source,
builds the image dictionary, the nested template and the payload, and returns
`(payload, endpoint)`.  `ValueError` is modelled as `Except.error`; the
function performs no I/O.  Python string truthiness is `≠ ""` and the
destructuring `a, b, c, d = parts` guarded by `len(parts) != 4` is the match
on a four-element list. -/
def make_job_create_request (marketplace_image_urn : String) (vhd_sas_url : String)
    (job_name : String) (template_name : String) (resource_group : String)
    (subscription_id : String) (vm_size : String) (test_priorities : List String)
    (test_cases : List String) (location : String) (region : List String)
    (concurrency : Int) (vm_generation : Int) (architecture : String) :
    Except String (Json × String) :=
  let endpoint := _get_endpoint ("jobs/" ++ job_name) resource_group subscription_id
  let image0 : List (String × Json) :=
    [("vhdGeneration", Json.int vm_generation), ("architecture", Json.str architecture)]
  let imageRes : Except String (List (String × Json)) :=
    if marketplace_image_urn ≠ "" ∧ vhd_sas_url ≠ "" then
      Except.error "Only one of --vhd-sas-url or --marketplace-image-urn can be used for a given test job."
    else if marketplace_image_urn ≠ "" then
      match pySplit marketplace_image_urn ':' with
      | [publisher, offer, sku, version] =>
        Except.ok (image0 ++
          [("type", Json.str "marketplace"), ("publisher", Json.str publisher),
           ("offer", Json.str offer), ("sku", Json.str sku), ("version", Json.str version)])
      | _ =>
        Except.error ("marketplace_image_urn should be in the format of \x27publisher:offer:sku:version\x27, got "
          ++ marketplace_image_urn)
    else if vhd_sas_url ≠ "" then
      Except.ok (image0 ++ [("type", Json.str "vhd"), ("url", Json.str vhd_sas_url)])
    else
      Except.error "One of --vhd-sas-url or --marketplace-image-urn should be passed."
  match imageRes with
  | Except.error e => Except.error e
  | Except.ok image =>
    match _create_template vm_size test_priorities test_cases location region concurrency with
    | Except.error e => Except.error e
    | Except.ok template =>
      Except.ok (Json.obj
        [("location", Json.str location),
         ("properties", Json.obj
           [("jobTemplateName", Json.str template_name),
            ("jobTemplateInstance", Json.obj template),
            ("image", Json.obj image)])],
        endpoint)

/-! Helper lemmas about the embedded primitives. -/

theorem splitChar_ne_nil (sep : Char) (cs : List Char) : splitChar sep cs ≠ [] := by
  cases cs with
  | nil => simp [splitChar]
  | cons c rest =>
    simp only [splitChar]
    by_cases h : c = sep
    · simp [h]
    · rw [if_neg h]
      cases hs : splitChar sep rest <;> simp

theorem joinSep_splitChar (sep : Char) (cs : List Char) :
    joinSep sep (splitChar sep cs) = cs := by
  induction cs with
  | nil => rfl
  | cons c rest ih =>
    simp only [splitChar]
    by_cases h : c = sep
    · rw [if_pos h]
      cases hs : splitChar sep rest with
      | nil => exact absurd hs (splitChar_ne_nil sep rest)
      | cons p ps =>
        rw [hs] at ih
        simp only [joinSep, List.nil_append]
        rw [ih, h]
    · rw [if_neg h]
      cases hs : splitChar sep rest with
      | nil => exact absurd hs (splitChar_ne_nil sep rest)
      | cons p ps =>
        rw [hs] at ih
        cases ps with
        | nil =>
          simp only [joinSep] at ih ⊢
          rw [ih]
        | cons q qs =>
          simp only [joinSep, List.cons_append] at ih ⊢
          rw [ih]

theorem not_mem_of_mem_splitChar (sep : Char) (cs : List Char) (p : List Char)
    (hp : p ∈ splitChar sep cs) : sep ∉ p := by
  induction cs generalizing p with
  | nil =>
    simp only [splitChar, List.mem_singleton] at hp
    subst hp
    simp
  | cons c rest ih =>
    simp only [splitChar] at hp
    by_cases h : c = sep
    · rw [if_pos h] at hp
      rcases List.mem_cons.mp hp with h1 | h1
      · subst h1; simp
      · exact ih p h1
    · rw [if_neg h] at hp
      cases hs : splitChar sep rest with
      | nil => exact absurd hs (splitChar_ne_nil sep rest)
      | cons q qs =>
        rw [hs] at hp
        rcases List.mem_cons.mp hp with h1 | h1
        · subst h1
          intro hmem
          rcases List.mem_cons.mp hmem with h2 | h2
          · exact h h2.symm
          · exact ih q (by rw [hs]; exact List.mem_cons_self q qs) h2
        · exact ih p (by rw [hs]; exact List.mem_cons.mpr (Or.inr h1))

theorem string_ne_of_head (a b : String) (h : a.data.head? ≠ b.data.head?) : a ≠ b :=
  fun he => h (by rw [he])

theorem mapPyInt_error_shape (l : List String) (e : String)
    (h : mapPyInt l = Except.error e) :
    ∃ s, e = "invalid literal for int() with base 10: \x27" ++ s ++ "\x27" := by
  induction l with
  | nil => simp [mapPyInt] at h
  | cons a rest ih =>
    simp only [mapPyInt] at h
    cases hp : pyInt a with
    | error e2 =>
      rw [hp] at h
      simp only [Except.error.injEq] at h
      subst h
      simp only [pyInt] at hp
      cases hc : pyIntOfString a with
      | none =>
        rw [hc] at hp
        simp only [Except.error.injEq] at hp
        exact ⟨a, hp.symm⟩
      | some n => rw [hc] at hp; simp at hp
    | ok n =>
      rw [hp] at h
      cases hm : mapPyInt rest with
      | error e2 =>
        rw [hm] at h
        simp only [Except.error.injEq] at h
        subst h
        exact ih hm
      | ok ns => rw [hm] at h; simp at h

theorem mapPyInt_ok_of_all (l : List String)
    (h : ∀ s ∈ l, (pyIntOfString s).isSome) : ∃ ns, mapPyInt l = Except.ok ns := by
  induction l with
  | nil => exact ⟨[], rfl⟩
  | cons a rest ih =>
    have ha : (pyIntOfString a).isSome := h a (List.mem_cons_self a rest)
    rcases Option.isSome_iff_exists.mp ha with ⟨n, hn⟩
    rcases ih (fun s hs => h s (List.mem_cons.mpr (Or.inr hs))) with ⟨ns, hns⟩
    refine ⟨n :: ns, ?_⟩
    simp only [mapPyInt, pyInt, hn, hns]

/-! Claim theorems. -/

/-- C7: on the concrete input of the repository test (marketplace URN empty,
VHD URL "http://foobar", job "testjob", template "testtemplate", group
"testgroup", subscription "testsub", vmSize "testsize", priorities ["1","2"],
no test cases, location "testlocation", regions ["testregion"]) and arbitrary
concurrency N, vmGeneration G, architecture "testarch",
`make_job_create_request` returns exactly the expected endpoint URL and the
expected payload. -/
theorem make_job_create_request_example (N G : Int) :
    make_job_create_request "" "http://foobar" "testjob" "testtemplate" "testgroup"
      "testsub" "testsize" ["1", "2"] [] "testlocation" ["testregion"] N G "testarch" =
    Except.ok (Json.obj
      [("location", Json.str "testlocation"),
       ("properties", Json.obj
         [("jobTemplateName", Json.str "testtemplate"),
          ("jobTemplateInstance", Json.obj
            [("templateTags", Json.arr []),
             ("selections", Json.arr [Json.obj [("casePriority", Json.arr [Json.int 1, Json.int 2])]]),
             ("region", Json.arr [Json.str "testregion"]),
             ("vmSize", Json.arr [Json.str "testsize"]),
             ("concurrency", Json.int N)]),
          ("image", Json.obj
            [("vhdGeneration", Json.int G),
             ("architecture", Json.str "testarch"),
             ("type", Json.str "vhd"),
             ("url", Json.str "http://foobar")])])],
      "https://eastus2euap.management.azure.com/subscriptions/testsub/resourceGroups/testgroup/providers/Microsoft.AzureImageTestingForLinux/jobs/testjob?api-version=2023-08-01-preview") := by
  rfl

/-- C1: whenever both image sources are non-empty, or both are empty,
`make_job_create_request` returns a validation error.  The embedded function
is pure (its type performs no I/O), so the error is produced without any
network call. -/
theorem make_job_create_request_both_or_neither (urn vhd jn tn rg sid vs : String)
    (tp tc : List String) (loc : String) (rgs : List String) (conc vg : Int) (arch : String)
    (h : (urn ≠ "" ∧ vhd ≠ "") ∨ (urn = "" ∧ vhd = "")) :
    ∃ msg, make_job_create_request urn vhd jn tn rg sid vs tp tc loc rgs conc vg arch =
      Except.error msg := by
  rcases h with ⟨h1, h2⟩ | ⟨h1, h2⟩
  · refine ⟨"Only one of --vhd-sas-url or --marketplace-image-urn can be used for a given test job.", ?_⟩
    simp [make_job_create_request, h1, h2]
  · subst h1; subst h2
    refine ⟨"One of --vhd-sas-url or --marketplace-image-urn should be passed.", ?_⟩
    simp [make_job_create_request]

/-- Witness for C1: instantiated at both sources present, and at both absent. -/
theorem make_job_create_request_both_or_neither_witness :
    ∃ msg, make_job_create_request "a:b:c:d" "http://x" "j" "t" "g" "s" "" [] [] "l" [] 0 2 "x64" =
      Except.error msg :=
  make_job_create_request_both_or_neither "a:b:c:d" "http://x" "j" "t" "g" "s" "" [] [] "l" [] 0 2 "x64"
    (Or.inl ⟨by decide, by decide⟩)

/-- C2: with an empty VHD URL and a non-empty marketplace URN that does not
split on a colon into exactly 4 parts, `make_job_create_request` fails with
the validation error whose message reports the malformed URN verbatim. -/
theorem make_job_create_request_malformed_urn (urn jn tn rg sid vs : String)
    (tp tc : List String) (loc : String) (rgs : List String) (conc vg : Int) (arch : String)
    (hurn : urn ≠ "") (hlen : (pySplit urn ':').length ≠ 4) :
    make_job_create_request urn "" jn tn rg sid vs tp tc loc rgs conc vg arch =
      Except.error ("marketplace_image_urn should be in the format of \x27publisher:offer:sku:version\x27, got "
        ++ urn) := by
  rcases hs : pySplit urn ':' with _ | ⟨a, _ | ⟨b, _ | ⟨c, _ | ⟨d, _ | ⟨e, rest⟩⟩⟩⟩⟩
  · simp [make_job_create_request, hurn, hs]
  · simp [make_job_create_request, hurn, hs]
  · simp [make_job_create_request, hurn, hs]
  · simp [make_job_create_request, hurn, hs]
  · exact absurd (by rw [hs]; rfl) hlen
  · simp [make_job_create_request, hurn, hs]

/-- Witness for C2: a two-part URN is rejected with the verbatim message. -/
theorem make_job_create_request_malformed_urn_witness :
    make_job_create_request "a:b" "" "j" "t" "g" "s" "" [] [] "l" [] 0 2 "x64" =
      Except.error ("marketplace_image_urn should be in the format of \x27publisher:offer:sku:version\x27, got "
        ++ "a:b") :=
  make_job_create_request_malformed_urn "a:b" "j" "t" "g" "s" "" [] [] "l" [] 0 2 "x64"
    (by decide) (by decide)

/-- C9: when both image sources are non-empty, the mutual-exclusivity error is
raised even for a malformed URN (the both-present check precedes URN format
validation), and with a non-empty VHD URL the malformed-URN error can never be
the outcome. -/
theorem make_job_create_request_exclusivity_precedence (urn vhd jn tn rg sid vs : String)
    (tp tc : List String) (loc : String) (rgs : List String) (conc vg : Int) (arch : String)
    (hvhd : vhd ≠ "") :
    (urn ≠ "" → make_job_create_request urn vhd jn tn rg sid vs tp tc loc rgs conc vg arch =
      Except.error "Only one of --vhd-sas-url or --marketplace-image-urn can be used for a given test job.") ∧
    make_job_create_request urn vhd jn tn rg sid vs tp tc loc rgs conc vg arch ≠
      Except.error ("marketplace_image_urn should be in the format of \x27publisher:offer:sku:version\x27, got "
        ++ urn) := by
  constructor
  · intro hurn
    simp [make_job_create_request, hurn, hvhd]
  · by_cases hurn : urn = ""
    · subst hurn
      cases hct : _create_template vs tp tc loc rgs conc with
      | ok t =>
        simp [make_job_create_request, hvhd, hct]
      | error e =>
        have h1 : make_job_create_request "" vhd jn tn rg sid vs tp tc loc rgs conc vg arch =
            Except.error e := by
          simp [make_job_create_request, hvhd, hct]
        rw [h1]
        obtain ⟨s, hshape⟩ : ∃ s, e = "invalid literal for int() with base 10: \x27" ++ s ++ "\x27" := by
          simp only [_create_template] at hct
          cases hmp : mapPyInt tp with
          | ok ns => rw [hmp] at hct; simp at hct
          | error e2 =>
            rw [hmp] at hct
            simp only [Except.error.injEq] at hct
            subst hct
            exact mapPyInt_error_shape tp e2 hmp
        subst hshape
        intro he
        simp only [Except.error.injEq] at he
        have hd := congrArg (fun t : String => t.data.head?) he
        simp only [String.data_append] at hd
        have hL : ((("invalid literal for int() with base 10: \x27").data ++ s.data) ++
            ("\x27").data).head? = some 'i' := rfl
        have hR : (("marketplace_image_urn should be in the format of \x27publisher:offer:sku:version\x27, got ").data
            ++ ("" : String).data).head? = some 'm' := rfl
        rw [hL, hR] at hd
        exact absurd hd (by decide)
    · have h1 : make_job_create_request urn vhd jn tn rg sid vs tp tc loc rgs conc vg arch =
          Except.error "Only one of --vhd-sas-url or --marketplace-image-urn can be used for a given test job." := by
        simp [make_job_create_request, hurn, hvhd]
      rw [h1]
      intro he
      simp only [Except.error.injEq] at he
      have hd := congrArg (fun t : String => t.data.head?) he
      simp only [String.data_append] at hd
      have h2 : (("marketplace_image_urn should be in the format of \x27publisher:offer:sku:version\x27, got ").data
          ++ urn.data).head? = some 'm' := rfl
      rw [h2] at hd
      exact absurd hd (by decide)

/-- Witness for C9: a malformed URN together with a VHD URL still produces the
mutual-exclusivity error, not the format error. -/
theorem make_job_create_request_exclusivity_precedence_witness :
    (make_job_create_request "bad" "http://x" "j" "t" "g" "s" "" [] [] "l" [] 0 2 "x64" =
      Except.error "Only one of --vhd-sas-url or --marketplace-image-urn can be used for a given test job.") ∧
    make_job_create_request "bad" "http://x" "j" "t" "g" "s" "" [] [] "l" [] 0 2 "x64" ≠
      Except.error ("marketplace_image_urn should be in the format of \x27publisher:offer:sku:version\x27, got "
        ++ "bad") := by
  have h := make_job_create_request_exclusivity_precedence "bad" "http://x" "j" "t" "g" "s" "" [] [] "l" [] 0 2 "x64"
    (by decide)
  exact ⟨h.1 (by decide), h.2⟩

/-- C3: with a non-empty VHD URL, an empty marketplace URN, and priorities
that parse as integers (the spec types them as numeric strings),
`make_job_create_request` succeeds and the payload image object has
type "vhd" and url equal to the input, with none of the marketplace
fields publisher, offer, sku, version. -/
theorem make_job_create_request_vhd (vhd jn tn rg sid vs : String)
    (tp tc : List String) (loc : String) (rgs : List String) (conc vg : Int) (arch : String)
    (hvhd : vhd ≠ "") (ns : List Int) (hp : mapPyInt tp = Except.ok ns) :
    ∃ pl, make_job_create_request "" vhd jn tn rg sid vs tp tc loc rgs conc vg arch =
        Except.ok (pl, _get_endpoint ("jobs/" ++ jn) rg sid) ∧
      ∃ img, (pl.getKey "properties").bind (fun pr => pr.getKey "image") = some (Json.obj img) ∧
        lookupKey "type" img = some (Json.str "vhd") ∧
        lookupKey "url" img = some (Json.str vhd) ∧
        lookupKey "publisher" img = none ∧
        lookupKey "offer" img = none ∧
        lookupKey "sku" img = none ∧
        lookupKey "version" img = none := by
  cases hct : _create_template vs tp tc loc rgs conc with
  | error e => simp [_create_template, hp] at hct
  | ok t =>
    refine ⟨Json.obj
      [("location", Json.str loc),
       ("properties", Json.obj
         [("jobTemplateName", Json.str tn),
          ("jobTemplateInstance", Json.obj t),
          ("image", Json.obj
            [("vhdGeneration", Json.int vg), ("architecture", Json.str arch),
             ("type", Json.str "vhd"), ("url", Json.str vhd)])])], ?_,
      [("vhdGeneration", Json.int vg), ("architecture", Json.str arch),
       ("type", Json.str "vhd"), ("url", Json.str vhd)], rfl, rfl, rfl, rfl, rfl, rfl, rfl⟩
    simp [make_job_create_request, hvhd, hct]

/-- Witness for C3. -/
theorem make_job_create_request_vhd_witness :
    ∃ pl, make_job_create_request "" "http://x" "j" "t" "g" "s" "" [] [] "l" [] 0 2 "x64" =
        Except.ok (pl, _get_endpoint ("jobs/" ++ "j") "g" "s") ∧
      ∃ img, (pl.getKey "properties").bind (fun pr => pr.getKey "image") = some (Json.obj img) ∧
        lookupKey "type" img = some (Json.str "vhd") ∧
        lookupKey "url" img = some (Json.str "http://x") ∧
        lookupKey "publisher" img = none ∧
        lookupKey "offer" img = none ∧
        lookupKey "sku" img = none ∧
        lookupKey "version" img = none :=
  make_job_create_request_vhd "http://x" "j" "t" "g" "s" "" [] [] "l" [] 0 2 "x64"
    (by decide) [] rfl

/-- C4: with an empty VHD URL and a marketplace URN splitting into exactly 4
colon-separated parts, `make_job_create_request` succeeds and the payload
image object has type "marketplace" with publisher, offer, sku, version equal
to the 4 parts in order (priorities assumed to parse, as the spec types
them). -/
theorem make_job_create_request_marketplace (urn jn tn rg sid vs : String)
    (tp tc : List String) (loc : String) (rgs : List String) (conc vg : Int) (arch : String)
    (pub off sk ver : String) (hsplit : pySplit urn ':' = [pub, off, sk, ver])
    (ns : List Int) (hp : mapPyInt tp = Except.ok ns) :
    ∃ pl, make_job_create_request urn "" jn tn rg sid vs tp tc loc rgs conc vg arch =
        Except.ok (pl, _get_endpoint ("jobs/" ++ jn) rg sid) ∧
      ∃ img, (pl.getKey "properties").bind (fun pr => pr.getKey "image") = some (Json.obj img) ∧
        lookupKey "type" img = some (Json.str "marketplace") ∧
        lookupKey "publisher" img = some (Json.str pub) ∧
        lookupKey "offer" img = some (Json.str off) ∧
        lookupKey "sku" img = some (Json.str sk) ∧
        lookupKey "version" img = some (Json.str ver) := by
  have hurn : urn ≠ "" := by
    intro h
    subst h
    simp [pySplit, splitChar] at hsplit
  cases hct : _create_template vs tp tc loc rgs conc with
  | error e => simp [_create_template, hp] at hct
  | ok t =>
    refine ⟨Json.obj
      [("location", Json.str loc),
       ("properties", Json.obj
         [("jobTemplateName", Json.str tn),
          ("jobTemplateInstance", Json.obj t),
          ("image", Json.obj
            [("vhdGeneration", Json.int vg), ("architecture", Json.str arch),
             ("type", Json.str "marketplace"), ("publisher", Json.str pub),
             ("offer", Json.str off), ("sku", Json.str sk), ("version", Json.str ver)])])], ?_,
      [("vhdGeneration", Json.int vg), ("architecture", Json.str arch),
       ("type", Json.str "marketplace"), ("publisher", Json.str pub),
       ("offer", Json.str off), ("sku", Json.str sk), ("version", Json.str ver)],
      rfl, rfl, rfl, rfl, rfl, rfl⟩
    simp [make_job_create_request, hurn, hsplit, hct]

/-- Witness for C4. -/
theorem make_job_create_request_marketplace_witness :
    ∃ pl, make_job_create_request "a:b:c:d" "" "j" "t" "g" "s" "" [] [] "l" [] 0 2 "x64" =
        Except.ok (pl, _get_endpoint ("jobs/" ++ "j") "g" "s") ∧
      ∃ img, (pl.getKey "properties").bind (fun pr => pr.getKey "image") = some (Json.obj img) ∧
        lookupKey "type" img = some (Json.str "marketplace") ∧
        lookupKey "publisher" img = some (Json.str "a") ∧
        lookupKey "offer" img = some (Json.str "b") ∧
        lookupKey "sku" img = some (Json.str "c") ∧
        lookupKey "version" img = some (Json.str "d") :=
  make_job_create_request_marketplace "a:b:c:d" "j" "t" "g" "s" "" [] [] "l" [] 0 2 "x64"
    "a" "b" "c" "d" rfl [] rfl

/-- C5: the template has a selections key iff priorities or test cases are
non-empty; when present it is a one-element sequence of a single object
carrying casePriority (the priorities parsed to integers, order preserved)
exactly when priorities are non-empty, and caseName (the test cases
unchanged) exactly when test cases are non-empty. -/
theorem create_template_selections (vs : String) (tp tc : List String) (loc : String)
    (rgs : List String) (conc : Int) (t : List (String × Json))
    (ht : _create_template vs tp tc loc rgs conc = Except.ok t) :
    ((lookupKey "selections" t ≠ none) ↔ (tp ≠ [] ∨ tc ≠ [])) ∧
    ((tp ≠ [] ∨ tc ≠ []) → ∃ sel, lookupKey "selections" t = some (Json.arr [Json.obj sel])) ∧
    (∀ sel, lookupKey "selections" t = some (Json.arr [Json.obj sel]) →
      ((lookupKey "casePriority" sel ≠ none) ↔ tp ≠ []) ∧
      ((lookupKey "caseName" sel ≠ none) ↔ tc ≠ []) ∧
      (∀ ns, mapPyInt tp = Except.ok ns →
        lookupKey "casePriority" sel = (if tp ≠ [] then some (Json.arr (ns.map Json.int)) else none)) ∧
      (lookupKey "caseName" sel = (if tc ≠ [] then some (Json.arr (tc.map Json.str)) else none))) := by
  cases hmp : mapPyInt tp with
  | error e => simp [_create_template, hmp] at ht
  | ok ps =>
    simp only [_create_template, hmp] at ht
    by_cases htp : tp = []
    · by_cases htc : tc = []
      · simp only [htp, htc] at ht ⊢
        simp only [ne_eq, not_true_eq_false, if_neg, ite_false, List.append_nil,
          List.nil_append, List.isEmpty_nil, ite_true, if_pos] at ht
        simp only [Except.ok.injEq] at ht
        subst ht
        refine ⟨by simp [lookupKey], by simp, ?_⟩
        intro sel hsel
        simp [lookupKey] at hsel
      · simp only [htp] at ht ⊢
        simp [htc] at ht
        subst ht
        refine ⟨by simp [lookupKey, htc], ?_, ?_⟩
        · intro hor
          exact ⟨[("caseName", Json.arr (tc.map Json.str))], by simp [lookupKey]⟩
        · intro sel hsel
          simp [lookupKey] at hsel
          subst hsel
          refine ⟨by simp [lookupKey], by simp [lookupKey, htc], ?_, by simp [lookupKey, htc]⟩
          intro ns hns
          simp [lookupKey]
    · by_cases htc : tc = []
      · simp only [htc] at ht ⊢
        simp [htp] at ht
        subst ht
        refine ⟨by simp [lookupKey, htp], ?_, ?_⟩
        · intro hor
          exact ⟨[("casePriority", Json.arr (ps.map Json.int))], by simp [lookupKey]⟩
        · intro sel hsel
          simp [lookupKey] at hsel
          subst hsel
          refine ⟨by simp [lookupKey, htp], by simp [lookupKey], ?_, by simp [lookupKey]⟩
          intro ns hns
          simp only [Except.ok.injEq] at hns
          subst hns
          simp [lookupKey, htp]
      · simp [htp, htc] at ht
        subst ht
        refine ⟨by simp [lookupKey, htp], ?_, ?_⟩
        · intro hor
          exact ⟨[("casePriority", Json.arr (ps.map Json.int)),
            ("caseName", Json.arr (tc.map Json.str))], by simp [lookupKey]⟩
        · intro sel hsel
          simp [lookupKey] at hsel
          subst hsel
          refine ⟨by simp [lookupKey, htp], by simp [lookupKey, htc], ?_, by simp [lookupKey, htc]⟩
          intro ns hns
          simp only [Except.ok.injEq] at hns
          subst hns
          simp [lookupKey, htp]

/-- Witness for C5: priorities ["1","2"] and no test cases yield a selections
entry holding exactly one object with casePriority [1, 2] and no caseName key. -/
theorem create_template_selections_witness :
    ((lookupKey "selections"
        [("templateTags", Json.arr []),
         ("selections", Json.arr [Json.obj [("casePriority", Json.arr [Json.int 1, Json.int 2])]]),
         ("region", Json.arr []),
         ("vmSize", Json.arr [Json.str "s"]),
         ("concurrency", Json.int 0)] ≠ none) ↔
      ((["1", "2"] : List String) ≠ [] ∨ ([] : List String) ≠ [])) ∧
    (((["1", "2"] : List String) ≠ [] ∨ ([] : List String) ≠ []) →
      ∃ sel, lookupKey "selections"
        [("templateTags", Json.arr []),
         ("selections", Json.arr [Json.obj [("casePriority", Json.arr [Json.int 1, Json.int 2])]]),
         ("region", Json.arr []),
         ("vmSize", Json.arr [Json.str "s"]),
         ("concurrency", Json.int 0)] = some (Json.arr [Json.obj sel])) ∧
    (∀ sel, lookupKey "selections"
        [("templateTags", Json.arr []),
         ("selections", Json.arr [Json.obj [("casePriority", Json.arr [Json.int 1, Json.int 2])]]),
         ("region", Json.arr []),
         ("vmSize", Json.arr [Json.str "s"]),
         ("concurrency", Json.int 0)] = some (Json.arr [Json.obj sel]) →
      ((lookupKey "casePriority" sel ≠ none) ↔ (["1", "2"] : List String) ≠ []) ∧
      ((lookupKey "caseName" sel ≠ none) ↔ ([] : List String) ≠ []) ∧
      (∀ ns, mapPyInt ["1", "2"] = Except.ok ns →
        lookupKey "casePriority" sel =
          (if (["1", "2"] : List String) ≠ [] then some (Json.arr (ns.map Json.int)) else none)) ∧
      (lookupKey "caseName" sel =
        (if ([] : List String) ≠ [] then some (Json.arr (([] : List String).map Json.str)) else none))) :=
  create_template_selections "s" ["1", "2"] [] "l" [] 0
    [("templateTags", Json.arr []),
     ("selections", Json.arr [Json.obj [("casePriority", Json.arr [Json.int 1, Json.int 2])]]),
     ("region", Json.arr []),
     ("vmSize", Json.arr [Json.str "s"]),
     ("concurrency", Json.int 0)] rfl

/-- C6: the template always carries region and vmSize keys as sequences —
region is the input regions sequence (empty when none are given), vmSize is
the one-element sequence of the input exactly when it is non-empty — and no
field of the template is a null placeholder. -/
theorem create_template_region_vmsize (vs : String) (tp tc : List String) (loc : String)
    (rgs : List String) (conc : Int) (t : List (String × Json))
    (ht : _create_template vs tp tc loc rgs conc = Except.ok t) :
    lookupKey "region" t = some (Json.arr (rgs.map Json.str)) ∧
    lookupKey "vmSize" t = some (Json.arr (if vs ≠ "" then [Json.str vs] else [])) ∧
    ∀ kv ∈ t, kv.2 ≠ Json.null := by
  cases hmp : mapPyInt tp with
  | error e => simp [_create_template, hmp] at ht
  | ok ps =>
    simp only [_create_template, hmp] at ht
    by_cases htp : tp = []
    · by_cases htc : tc = []
      · simp [htp, htc] at ht
        subst ht
        exact ⟨by simp [lookupKey], by simp [lookupKey], by simp [List.forall_mem_cons]⟩
      · simp [htp, htc] at ht
        subst ht
        exact ⟨by simp [lookupKey], by simp [lookupKey], by simp [List.forall_mem_cons]⟩
    · by_cases htc : tc = []
      · simp [htp, htc] at ht
        subst ht
        exact ⟨by simp [lookupKey], by simp [lookupKey], by simp [List.forall_mem_cons]⟩
      · simp [htp, htc] at ht
        subst ht
        exact ⟨by simp [lookupKey], by simp [lookupKey], by simp [List.forall_mem_cons]⟩

/-- Witness for C6. -/
theorem create_template_region_vmsize_witness :
    lookupKey "region"
      [("templateTags", Json.arr []),
       ("selections", Json.arr [Json.obj
         [("casePriority", Json.arr [Json.int 1]), ("caseName", Json.arr [Json.str "c1"])]]),
       ("region", Json.arr [Json.str "r1", Json.str "r2"]),
       ("vmSize", Json.arr [Json.str "vs"]),
       ("concurrency", Json.int 3)] = some (Json.arr (["r1", "r2"].map Json.str)) ∧
    lookupKey "vmSize"
      [("templateTags", Json.arr []),
       ("selections", Json.arr [Json.obj
         [("casePriority", Json.arr [Json.int 1]), ("caseName", Json.arr [Json.str "c1"])]]),
       ("region", Json.arr [Json.str "r1", Json.str "r2"]),
       ("vmSize", Json.arr [Json.str "vs"]),
       ("concurrency", Json.int 3)] =
      some (Json.arr (if ("vs" : String) ≠ "" then [Json.str "vs"] else [])) ∧
    ∀ kv ∈ ([("templateTags", Json.arr []),
       ("selections", Json.arr [Json.obj
         [("casePriority", Json.arr [Json.int 1]), ("caseName", Json.arr [Json.str "c1"])]]),
       ("region", Json.arr [Json.str "r1", Json.str "r2"]),
       ("vmSize", Json.arr [Json.str "vs"]),
       ("concurrency", Json.int 3)] : List (String × Json)), kv.2 ≠ Json.null :=
  create_template_region_vmsize "vs" ["1"] ["c1"] "l" ["r1", "r2"] 3
    [("templateTags", Json.arr []),
     ("selections", Json.arr [Json.obj
       [("casePriority", Json.arr [Json.int 1]), ("caseName", Json.arr [Json.str "c1"])]]),
     ("region", Json.arr [Json.str "r1", Json.str "r2"]),
     ("vmSize", Json.arr [Json.str "vs"]),
     ("concurrency", Json.int 3)] rfl

/-- C8: for priorities that are numeric strings (every element parses as an
integer), `_create_template` always succeeds: it is a total transformation
with no error conditions. -/
theorem create_template_total (vs : String) (tp tc : List String) (loc : String)
    (rgs : List String) (conc : Int)
    (h : ∀ s ∈ tp, (pyIntOfString s).isSome) :
    ∃ t, _create_template vs tp tc loc rgs conc = Except.ok t := by
  rcases mapPyInt_ok_of_all tp h with ⟨ns, hns⟩
  cases hct : _create_template vs tp tc loc rgs conc with
  | ok t => exact ⟨t, rfl⟩
  | error e => simp [_create_template, hns] at hct

/-- Witness for C8. -/
theorem create_template_total_witness :
    ∃ t, _create_template "s" ["1", "2"] ["case"] "l" ["r"] 3 = Except.ok t :=
  create_template_total "s" ["1", "2"] ["case"] "l" ["r"] 3 (by decide)

/-- C10: whenever `make_job_create_request` accepts a marketplace URN (empty
VHD URL, result ok), the URN splits into exactly 4 parts which become the
publisher, offer, sku and version fields of the payload image; none of them
contains a colon, and joining them with colons reconstructs the URN. -/
theorem make_job_create_request_urn_roundtrip (urn jn tn rg sid vs : String)
    (tp tc : List String) (loc : String) (rgs : List String) (conc vg : Int) (arch : String)
    (pl : Json) (ep : String)
    (hok : make_job_create_request urn "" jn tn rg sid vs tp tc loc rgs conc vg arch =
      Except.ok (pl, ep)) :
    ∃ pub off sk ver : String,
      pySplit urn ':' = [pub, off, sk, ver] ∧
      (((pl.getKey "properties").bind (fun pr => pr.getKey "image")).bind
        (fun im => im.getKey "publisher")) = some (Json.str pub) ∧
      (((pl.getKey "properties").bind (fun pr => pr.getKey "image")).bind
        (fun im => im.getKey "offer")) = some (Json.str off) ∧
      (((pl.getKey "properties").bind (fun pr => pr.getKey "image")).bind
        (fun im => im.getKey "sku")) = some (Json.str sk) ∧
      (((pl.getKey "properties").bind (fun pr => pr.getKey "image")).bind
        (fun im => im.getKey "version")) = some (Json.str ver) ∧
      (':' ∉ pub.data ∧ ':' ∉ off.data ∧ ':' ∉ sk.data ∧ ':' ∉ ver.data) ∧
      pub ++ ":" ++ off ++ ":" ++ sk ++ ":" ++ ver = urn := by
  by_cases hurn : urn = ""
  · subst hurn
    simp [make_job_create_request] at hok
  · rcases hsc : splitChar ':' urn.data with _ | ⟨la, _ | ⟨lb, _ | ⟨lc, _ | ⟨ld, _ | ⟨le, lrest⟩⟩⟩⟩⟩
    · exact absurd hsc (splitChar_ne_nil ':' urn.data)
    · simp [make_job_create_request, hurn, pySplit, hsc] at hok
    · simp [make_job_create_request, hurn, pySplit, hsc] at hok
    · simp [make_job_create_request, hurn, pySplit, hsc] at hok
    · cases hct : _create_template vs tp tc loc rgs conc with
      | error e => simp [make_job_create_request, hurn, pySplit, hsc, hct] at hok
      | ok t =>
        simp [make_job_create_request, hurn, pySplit, hsc, hct] at hok
        obtain ⟨hpl, hep⟩ := hok
        subst hpl
        have hjoin := joinSep_splitChar ':' urn.data
        rw [hsc] at hjoin
        simp only [joinSep] at hjoin
        refine ⟨String.mk la, String.mk lb, String.mk lc, String.mk ld,
          by simp [pySplit, hsc], rfl, rfl, rfl, rfl,
          ⟨?_, ?_, ?_, ?_⟩, ?_⟩
        · exact not_mem_of_mem_splitChar ':' urn.data la (by rw [hsc]; simp)
        · exact not_mem_of_mem_splitChar ':' urn.data lb (by rw [hsc]; simp)
        · exact not_mem_of_mem_splitChar ':' urn.data lc (by rw [hsc]; simp)
        · exact not_mem_of_mem_splitChar ':' urn.data ld (by rw [hsc]; simp)
        · apply String.ext
          simp only [String.data_append]
          show la ++ [':'] ++ lb ++ [':'] ++ lc ++ [':'] ++ ld = urn.data
          simp only [List.append_assoc, List.singleton_append]
          exact hjoin
    · simp [make_job_create_request, hurn, pySplit, hsc] at hok

/-- Witness for C10: the accepted URN "a:b:c:d" splits into parts that appear
as the image fields, are colon-free, and rejoin to the URN. -/
theorem make_job_create_request_urn_roundtrip_witness :
    ∃ pub off sk ver : String,
      pySplit "a:b:c:d" ':' = [pub, off, sk, ver] ∧
      ((((Json.obj
        [("location", Json.str "l"),
         ("properties", Json.obj
           [("jobTemplateName", Json.str "t"),
            ("jobTemplateInstance", Json.obj
              [("templateTags", Json.arr []),
               ("region", Json.arr []),
               ("vmSize", Json.arr []),
               ("concurrency", Json.int 0)]),
            ("image", Json.obj
              [("vhdGeneration", Json.int 2),
               ("architecture", Json.str "x64"),
               ("type", Json.str "marketplace"),
               ("publisher", Json.str "a"),
               ("offer", Json.str "b"),
               ("sku", Json.str "c"),
               ("version", Json.str "d")])])]).getKey "properties").bind
        (fun pr => pr.getKey "image")).bind (fun im => im.getKey "publisher")) =
        some (Json.str pub) ∧
      ((((Json.obj
        [("location", Json.str "l"),
         ("properties", Json.obj
           [("jobTemplateName", Json.str "t"),
            ("jobTemplateInstance", Json.obj
              [("templateTags", Json.arr []),
               ("region", Json.arr []),
               ("vmSize", Json.arr []),
               ("concurrency", Json.int 0)]),
            ("image", Json.obj
              [("vhdGeneration", Json.int 2),
               ("architecture", Json.str "x64"),
               ("type", Json.str "marketplace"),
               ("publisher", Json.str "a"),
               ("offer", Json.str "b"),
               ("sku", Json.str "c"),
               ("version", Json.str "d")])])]).getKey "properties").bind
        (fun pr => pr.getKey "image")).bind (fun im => im.getKey "offer")) =
        some (Json.str off) ∧
      ((((Json.obj
        [("location", Json.str "l"),
         ("properties", Json.obj
           [("jobTemplateName", Json.str "t"),
            ("jobTemplateInstance", Json.obj
              [("templateTags", Json.arr []),
               ("region", Json.arr []),
               ("vmSize", Json.arr []),
               ("concurrency", Json.int 0)]),
            ("image", Json.obj
              [("vhdGeneration", Json.int 2),
               ("architecture", Json.str "x64"),
               ("type", Json.str "marketplace"),
               ("publisher", Json.str "a"),
               ("offer", Json.str "b"),
               ("sku", Json.str "c"),
               ("version", Json.str "d")])])]).getKey "properties").bind
        (fun pr => pr.getKey "image")).bind (fun im => im.getKey "sku")) =
        some (Json.str sk) ∧
      ((((Json.obj
        [("location", Json.str "l"),
         ("properties", Json.obj
           [("jobTemplateName", Json.str "t"),
            ("jobTemplateInstance", Json.obj
              [("templateTags", Json.arr []),
               ("region", Json.arr []),
               ("vmSize", Json.arr []),
               ("concurrency", Json.int 0)]),
            ("image", Json.obj
              [("vhdGeneration", Json.int 2),
               ("architecture", Json.str "x64"),
               ("type", Json.str "marketplace"),
               ("publisher", Json.str "a"),
               ("offer", Json.str "b"),
               ("sku", Json.str "c"),
               ("version", Json.str "d")])])]).getKey "properties").bind
        (fun pr => pr.getKey "image")).bind (fun im => im.getKey "version")) =
        some (Json.str ver) ∧
      (':' ∉ pub.data ∧ ':' ∉ off.data ∧ ':' ∉ sk.data ∧ ':' ∉ ver.data) ∧
      pub ++ ":" ++ off ++ ":" ++ sk ++ ":" ++ ver = "a:b:c:d" :=
  make_job_create_request_urn_roundtrip "a:b:c:d" "j" "t" "g" "s" "" [] [] "l" [] 0 2 "x64"
    (Json.obj
      [("location", Json.str "l"),
       ("properties", Json.obj
         [("jobTemplateName", Json.str "t"),
          ("jobTemplateInstance", Json.obj
            [("templateTags", Json.arr []),
             ("region", Json.arr []),
             ("vmSize", Json.arr []),
             ("concurrency", Json.int 0)]),
          ("image", Json.obj
            [("vhdGeneration", Json.int 2),
             ("architecture", Json.str "x64"),
             ("type", Json.str "marketplace"),
             ("publisher", Json.str "a"),
             ("offer", Json.str "b"),
             ("sku", Json.str "c"),
             ("version", Json.str "d")])])])
    "https://eastus2euap.management.azure.com/subscriptions/s/resourceGroups/g/providers/Microsoft.AzureImageTestingForLinux/jobs/j?api-version=2023-08-01-preview"
    rfl
